import Mathlib

/-!
Verification development for src/blosc2/c2array.py: a shallow embedding
of the remote-array client (slice encoding, response decoding, handle
construction and indexing) together with theorems settling the stated
properties of that code. Line numbers in the comments refer to
src/blosc2/c2array.py.
-/

set_option autoImplicit false

/-- Decidable equality of Except outcomes, so that concrete runs of the
embedded code can be checked by evaluation. -/
instance exceptDecEq {ε α : Type} [DecidableEq ε] [DecidableEq α] :
    DecidableEq (Except ε α) := fun x y =>
  match x, y with
  | Except.ok a, Except.ok b =>
    if h : a = b then Decidable.isTrue (by rw [h])
    else Decidable.isFalse (by intro hc; cases hc; exact h rfl)
  | Except.ok _, Except.error _ => Decidable.isFalse (by intro hc; cases hc)
  | Except.error _, Except.ok _ => Decidable.isFalse (by intro hc; cases hc)
  | Except.error e, Except.error f =>
    if h : e = f then Decidable.isTrue (by rw [h])
    else Decidable.isFalse (by intro hc; cases hc; exact h rfl)

/-- Python exception values raised along the embedded code paths. The
constructor decodeError stands for the DecodeError name used by the
design document; no code path in src raises it (modelled from the spec
so that its absence can be stated). -/
inductive PyErr where
  | indexError (msg : String)
  | keyError (key : String)
  | typeError (msg : String)
  | valueError
  | runtimeError
  | httpStatusError (status : Nat)
  | decodeError
  deriving Repr, DecidableEq

/-- JSON values appearing in the metadata body of the info endpoint.
Integer arrays cover the shape, chunks, blocks and ext_shape fields;
strings cover the dtype field. -/
inductive Json where
  | num (n : Int)
  | str (s : String)
  | arr (xs : List Int)
  deriving Repr, DecidableEq

/-- One per-axis term of a Python indexing expression: an int, a slice
object with optional start, stop and step, or a value of any other
type (the loop on lines 53 to 62 tests exactly these three shapes). -/
inductive PyIndexTerm where
  | int (i : Int)
  | slice (start stop step : Option Int)
  | other
  deriving Repr, DecidableEq

/-- The argument accepted by slice_to_string and by the indexing entry
point: None, a single non-tuple term, or a tuple of terms. -/
inductive PyIndex where
  | none
  | term (t : PyIndexTerm)
  | tuple (ts : List PyIndexTerm)
  deriving Repr, DecidableEq

/-- An in-memory N-dimensional array as produced by the external engine
when decoding a full container: a shape and flat element data. -/
structure NDArr where
  shape : List Nat
  data : List Int
  deriving Repr, DecidableEq

/-- Modelled from the spec: a raw response payload, classified by which
of the two collaborator decoders of the section 6 collaborator contract
accepts it. sliceFrame is accepted by decompress2; container is
rejected by decompress2 with ValueError and accepted by
ndarray_from_cframe; garbage is rejected by both, carrying the error of
ndarray_from_cframe; fatal is rejected by decompress2 with the carried
error. -/
inductive Payload where
  | sliceFrame (bytes : List Nat)
  | container (arr : NDArr)
  | garbage (e : PyErr)
  | fatal (e : PyErr)
  deriving Repr, DecidableEq

/-- The value produced by fetch_data: decompressed raw bytes (variant a)
or a materialized array (variant b). -/
inductive FetchResult where
  | rawBytes (bytes : List Nat)
  | array (a : NDArr)
  deriving Repr, DecidableEq

/-- An HTTP GET request as assembled inside _xget: url, query
parameters, and the optional Cookie header value. -/
structure Request where
  url : String
  params : List (String × String)
  cookie : Option String
  deriving Repr, DecidableEq

/-- A response body: a JSON object (info endpoint) or raw bytes (fetch
endpoint). -/
inductive Body where
  | json (j : List (String × Json))
  | bytes (p : Payload)
  deriving Repr, DecidableEq

/-- An HTTP response: status code and body. -/
structure Response where
  status : Nat
  body : Body
  deriving Repr, DecidableEq

/-- The transport collaborator: a pure map from requests to responses,
standing for httpx.get. -/
abbrev Transport := Request → Response

/-- Python truthiness of an optional string: None and the empty string
are falsy (line 20 tests the auth cookie this way). -/
def pyTruthy : Option String → Bool
  | Option.none => false
  | Option.some s => if s = "" then false else true

/-- The Cookie header attached by _xget on lines 20 to 22: the cookie
value when truthy, otherwise nothing. -/
def cookieHeader (auth_cookie : Option String) : Option String :=
  if pyTruthy auth_cookie then auth_cookie else Option.none

/-- Success statuses per response.raise_for_status on line 24: the 2xx
range. -/
def isSuccess (status : Nat) : Bool :=
  decide (200 ≤ status ∧ status < 300)

/-- The message of the IndexError raised on line 60. -/
def stepMsg : String := "Only step=1 is supported"

/-- Rendering of one slice bound, lines 57 and 58: the Python idiom
(bound or empty string) maps None and the falsy integer 0 to the empty
string and any other integer to its decimal form. -/
def boundToString : Option Int → String
  | Option.none => ""
  | Option.some i => if i = 0 then "" else toString i

/-- The loop of slice_to_string, lines 53 to 62: int terms render as
decimals, slice terms render as start colon stop after the step check
on lines 59 and 60, and terms of any other type are skipped (the loop
has no else branch). A raised IndexError aborts the whole call; every
raise site produces the same error value, so evaluation order does not
affect the result. -/
def renderTerms : List PyIndexTerm → Except PyErr (List String)
  | [] => Except.ok []
  | PyIndexTerm.int i :: ts =>
    match renderTerms ts with
    | Except.ok rest => Except.ok (toString i :: rest)
    | Except.error e => Except.error e
  | PyIndexTerm.slice a b st :: ts =>
    if st = Option.some 1 ∨ st = Option.none then
      match renderTerms ts with
      | Except.ok rest => Except.ok ((boundToString a ++ ":" ++ boundToString b) :: rest)
      | Except.error e => Except.error e
    else Except.error (PyErr.indexError stepMsg)
  | PyIndexTerm.other :: ts => renderTerms ts

/-- The select-everything test on line 48: the argument is None, equals
the empty tuple, or equals slice(None). -/
def sliceIsFullOpen : PyIndex → Bool
  | PyIndex.none => true
  | PyIndex.tuple [] => true
  | PyIndex.term (PyIndexTerm.slice Option.none Option.none Option.none) => true
  | _ => false

/-- Whether a single term equals slice(None). -/
def isFullOpenTerm : PyIndexTerm → Bool
  | PyIndexTerm.slice Option.none Option.none Option.none => true
  | _ => false

/-- The normalization on lines 51 and 52: a non-tuple argument is
wrapped into a one-element tuple. The None argument never reaches this
point because line 48 already returned. -/
def termsOf : PyIndex → List PyIndexTerm
  | PyIndex.none => []
  | PyIndex.term t => [t]
  | PyIndex.tuple ts => ts

/-- slice_to_string, lines 47 to 63. -/
def slice_to_string (slice_ : PyIndex) : Except PyErr String :=
  if sliceIsFullOpen slice_ then Except.ok ""
  else
    match renderTerms (termsOf slice_) with
    | Except.ok parts => Except.ok (String.intercalate ", " parts)
    | Except.error e => Except.error e

/-- Modelled from the spec: the collaborator decompress2 (section 6)
detects and decompresses a standalone compressed frame, raising
ValueError on the container and garbage payload classes. -/
def decompress2 : Payload → Except PyErr (List Nat)
  | Payload.sliceFrame bs => Except.ok bs
  | Payload.container _ => Except.error PyErr.valueError
  | Payload.garbage _ => Except.error PyErr.valueError
  | Payload.fatal e => Except.error e

/-- Modelled from the spec: the collaborator ndarray_from_cframe
(section 6) decodes a full self-describing container; on a payload that
is not a container it raises, the garbage class carrying its error. -/
def ndarray_from_cframe : Payload → Except PyErr NDArr
  | Payload.container a => Except.ok a
  | Payload.sliceFrame _ => Except.error PyErr.runtimeError
  | Payload.garbage e => Except.error e
  | Payload.fatal _ => Except.error PyErr.runtimeError

/-- Indexing the decoded NDArray with a full colon, line 43:
materializes the complete one-dimensional content. -/
def ndGetItemColon (a : NDArr) : NDArr := a

/-- Indexing the decoded NDArray with the empty tuple, line 43:
materializes the complete content for any dimensionality. -/
def ndGetItemEmptyTuple (a : NDArr) : NDArr := a

/-- Lines 38 to 44 of fetch_data: try decompress2; on ValueError or
RuntimeError fall back to ndarray_from_cframe and materialize the whole
decoded array, branching on whether ndim equals one; any other error of
the first step, and any error of the second step, propagates
unchanged. -/
def decodePayload (p : Payload) : Except PyErr FetchResult :=
  match decompress2 p with
  | Except.ok bs => Except.ok (FetchResult.rawBytes bs)
  | Except.error e =>
    if e = PyErr.valueError ∨ e = PyErr.runtimeError then
      match ndarray_from_cframe p with
      | Except.ok nd =>
        Except.ok (FetchResult.array
          (if nd.shape.length = 1 then ndGetItemColon nd else ndGetItemEmptyTuple nd))
      | Except.error e2 => Except.error e2
    else Except.error e

/-- _xget, lines 19 to 25: build the request with the optional Cookie
header, perform the GET, and raise for a non-success status. The issued
request is returned alongside the outcome so theorems can count network
calls; headers other than Cookie and the timeout are not modelled. -/
def _xget (t : Transport) (url : String) (params : List (String × String))
    (auth_cookie : Option String) : List Request × Except PyErr Response :=
  let req : Request := { url := url, params := params, cookie := cookieHeader auth_cookie }
  let resp := t req
  ([req],
    if isSuccess resp.status then Except.ok resp
    else Except.error (PyErr.httpStatusError resp.status))

/-- response.json() on line 31: succeeds only on a JSON body. -/
def respJson (r : Response) : Except PyErr (List (String × Json)) :=
  match r.body with
  | Body.json j => Except.ok j
  | Body.bytes _ => Except.error PyErr.valueError

/-- response.content on line 38: the raw byte payload; a JSON body seen
as bytes belongs to neither payload class. -/
def respContent (r : Response) : Payload :=
  match r.body with
  | Body.bytes p => p
  | Body.json _ => Payload.garbage PyErr.valueError

/-- get, lines 28 to 32, at its call site in the constructor: params
and model are None there, so the JSON body is returned as is. -/
def get (t : Transport) (url : String) (auth_cookie : Option String) :
    List Request × Except PyErr (List (String × Json)) :=
  let xr := _xget t url [] auth_cookie
  (xr.1,
    match xr.2 with
    | Except.error e => Except.error e
    | Except.ok resp => respJson resp)

/-- fetch_data, lines 35 to 44. -/
def fetch_data (t : Transport) (path sub_url : String)
    (params : List (String × String)) (auth_cookie : Option String) :
    List Request × Except PyErr FetchResult :=
  let xr := _xget t (sub_url ++ "api/fetch/" ++ path) params auth_cookie
  (xr.1,
    match xr.2 with
    | Except.error e => Except.error e
    | Except.ok resp => decodePayload (respContent resp))

/-- The remote array handle: identity fields plus the metadata JSON
body cached by the constructor. The Operand base class contributes
nothing to the embedded code paths. -/
structure C2Array where
  path : String
  sub_url : String
  auth_cookie : Option String
  meta : List (String × Json)
  deriving Repr, DecidableEq

/-- The constructor, lines 67 to 89: store the identity fields and
fetch the metadata JSON once; the body is stored verbatim, with no
validation of its fields. -/
def C2Array.init (t : Transport) (path sub_url : String)
    (auth_cookie : Option String) : List Request × Except PyErr C2Array :=
  let r := get t (sub_url ++ "api/info/" ++ path) auth_cookie
  (r.1,
    match r.2 with
    | Except.error e => Except.error e
    | Except.ok j =>
      Except.ok { path := path, sub_url := sub_url, auth_cookie := auth_cookie, meta := j })

/-- The indexing entry point, lines 91 to 109: encode the index, then
fetch. The method body never assigns to self, so the handle comes back
unchanged; when slice_to_string raises, fetch_data is never entered and
the list of issued requests is empty. -/
def C2Array.getItem (t : Transport) (a : C2Array) (slice_ : PyIndex) :
    C2Array × List Request × Except PyErr FetchResult :=
  match slice_to_string slice_ with
  | Except.error e => (a, [], Except.error e)
  | Except.ok s =>
    let fr := fetch_data t a.path a.sub_url [("slice_", s)] a.auth_cookie
    (a, fr.1, fr.2)

/-- Python dict subscript on the cached metadata: KeyError when the key
is absent. Lookup takes the first binding, as JSON objects carry unique
keys. -/
def dictGet (d : List (String × Json)) (k : String) : Except PyErr Json :=
  match d.lookup k with
  | Option.some v => Except.ok v
  | Option.none => Except.error (PyErr.keyError k)

/-- The tuple conversion used by the shape, chunks, blocks and
ext_shape properties: a JSON array yields its elements; a string
iterates into its character code points; a number is not iterable. -/
def pyTuple : Json → Except PyErr (List Int)
  | Json.arr xs => Except.ok xs
  | Json.str s => Except.ok (s.toList.map fun c => Int.ofNat c.toNat)
  | Json.num _ => Except.error (PyErr.typeError "int object is not iterable")

/-- The shape property, lines 111 to 114: a pure read of the cache. -/
def C2Array.shape (a : C2Array) : Except PyErr (List Int) :=
  match dictGet a.meta "shape" with
  | Except.ok v => pyTuple v
  | Except.error e => Except.error e

/-- The chunks property, lines 116 to 119. -/
def C2Array.chunks (a : C2Array) : Except PyErr (List Int) :=
  match dictGet a.meta "chunks" with
  | Except.ok v => pyTuple v
  | Except.error e => Except.error e

/-- The blocks property, lines 121 to 124. -/
def C2Array.blocks (a : C2Array) : Except PyErr (List Int) :=
  match dictGet a.meta "blocks" with
  | Except.ok v => pyTuple v
  | Except.error e => Except.error e

/-- The dtype property, lines 126 to 129: the raw JSON value. -/
def C2Array.dtype (a : C2Array) : Except PyErr Json :=
  dictGet a.meta "dtype"

/-- The ext_shape property, lines 131 to 134. -/
def C2Array.ext_shape (a : C2Array) : Except PyErr (List Int) :=
  match dictGet a.meta "ext_shape" with
  | Except.ok v => pyTuple v
  | Except.error e => Except.error e

/-- The request a fetch issues, exactly as assembled inside _xget. -/
def fetchRequest (a : C2Array) (s : String) : Request :=
  { url := a.sub_url ++ "api/fetch/" ++ a.path
    params := [("slice_", s)]
    cookie := cookieHeader a.auth_cookie }

/-- The request the constructor issues. -/
def infoRequest (path sub_url : String) (ck : Option String) : Request :=
  { url := sub_url ++ "api/info/" ++ path
    params := []
    cookie := cookieHeader ck }

/-- Decimal form of an optional integer, empty when absent. -/
def optIntStr : Option Int → String
  | Option.none => ""
  | Option.some i => toString i

/-- A term of the section 6 wire grammar: INTEGER, or an optional
INTEGER, a colon, and an optional INTEGER. -/
inductive WireTerm where
  | intTok (i : Int)
  | rangeTok (a b : Option Int)
  deriving Repr, DecidableEq

/-- The text of one wire grammar term. -/
def wireTermStr : WireTerm → String
  | WireTerm.intTok i => toString i
  | WireTerm.rangeTok a b => optIntStr a ++ ":" ++ optIntStr b

/-- Modelled from the spec: the wire slice string grammar of section 6,
the empty string or grammar terms joined by comma space. -/
def matchesWireGrammar (s : String) : Prop :=
  s = "" ∨ ∃ ws : List WireTerm, ws ≠ [] ∧ s = String.intercalate ", " (ws.map wireTermStr)

/-- A term the claims call valid: an int, or a slice whose step is one
or unspecified. -/
def validTerm : PyIndexTerm → Bool
  | PyIndexTerm.int _ => true
  | PyIndexTerm.slice _ _ st => decide (st = Option.some 1 ∨ st = Option.none)
  | PyIndexTerm.other => false

/-- The rendering slice_to_string actually performs on one valid
term. -/
def codeRenderTerm : PyIndexTerm → String
  | PyIndexTerm.int i => toString i
  | PyIndexTerm.slice a b _ => boundToString a ++ ":" ++ boundToString b
  | PyIndexTerm.other => ""

/-- Modelled from the spec: the rendering claim C4 states, in which
every set bound prints its decimal form and only an unset bound prints
as the empty string. -/
def claimRenderTerm : PyIndexTerm → String
  | PyIndexTerm.int i => toString i
  | PyIndexTerm.slice a b _ => optIntStr a ++ ":" ++ optIntStr b
  | PyIndexTerm.other => ""

/-- Drop a zero bound, mirroring the falsy test of lines 57 and 58. -/
def normBound (x : Option Int) : Option Int :=
  if x = Option.some 0 then Option.none else x

/-- The wire grammar term corresponding to one rendered valid term. -/
def toWireTerm : PyIndexTerm → WireTerm
  | PyIndexTerm.int i => WireTerm.intTok i
  | PyIndexTerm.slice a b _ => WireTerm.rangeTok (normBound a) (normBound b)
  | PyIndexTerm.other => WireTerm.intTok 0

/-- A slice term whose step is set and differs from one. -/
def termBadStep : PyIndexTerm → Bool
  | PyIndexTerm.slice _ _ (Option.some k) => decide (k ≠ 1)
  | _ => false

/-- An index expression containing a slice term with a set non-unit
step. -/
def hasBadStep : PyIndex → Bool
  | PyIndex.none => false
  | PyIndex.term t => termBadStep t
  | PyIndex.tuple ts => ts.any termBadStep

/-- Modelled from the spec: applying a one-dimensional range selection
from start to stop to a decoded array, the sub-region extraction the
design document says the container fallback performs. -/
def specExtract1D (a : NDArr) (start stop : Nat) : NDArr :=
  { shape := [stop - start], data := (a.data.drop start).take (stop - start) }

/-- A concrete handle for witness statements. -/
def hA : C2Array :=
  { path := "arr", sub_url := "http://sub/", auth_cookie := Option.some "tok", meta := [] }

/-- A second handle sharing the metadata of hA but nothing else. -/
def hB : C2Array :=
  { path := "brr", sub_url := "http://sub2/", auth_cookie := Option.none, meta := [] }

/-- A transport stub answering 404 to every request. -/
def stub404 : Transport := fun _ => { status := 404, body := Body.json [] }

/-- A transport stub answering 200 with an empty JSON object. -/
def stub200json : Transport := fun _ => { status := 200, body := Body.json [] }

/-! Helper lemmas about the encoder and the unfolding of get. -/

theorem get_unfold (t : Transport) (url : String) (ck : Option String) :
    get t url ck =
      ((_xget t url [] ck).1,
        match (_xget t url [] ck).2 with
        | Except.error e => Except.error e
        | Except.ok resp => respJson resp) := rfl

theorem renderTerms_valid (ts : List PyIndexTerm) (h : ts.all validTerm = true) :
    renderTerms ts = Except.ok (ts.map codeRenderTerm) := by
  induction ts with
  | nil => rfl
  | cons t l ih =>
    simp only [List.all_cons, Bool.and_eq_true] at h
    cases t with
    | int i => simp [renderTerms, ih h.2, codeRenderTerm]
    | slice a b st =>
      have hc : st = Option.some 1 ∨ st = Option.none := of_decide_eq_true h.1
      simp [renderTerms, if_pos hc, ih h.2, codeRenderTerm]
    | other => simp [validTerm] at h

theorem renderTerms_bad (ts : List PyIndexTerm) (h : ts.any termBadStep = true) :
    renderTerms ts = Except.error (PyErr.indexError stepMsg) := by
  induction ts with
  | nil => exact Bool.noConfusion h
  | cons t l ih =>
    simp only [List.any_cons, Bool.or_eq_true] at h
    cases t with
    | int i =>
      have hb : l.any termBadStep = true := by
        rcases h with h | h
        · exact Bool.noConfusion h
        · exact h
      simp [renderTerms, ih hb]
    | other =>
      have hb : l.any termBadStep = true := by
        rcases h with h | h
        · exact Bool.noConfusion h
        · exact h
      simp [renderTerms, ih hb]
    | slice a b st =>
      by_cases hc : st = Option.some 1 ∨ st = Option.none
      · have hhead : termBadStep (PyIndexTerm.slice a b st) = false := by
          rcases hc with h1 | h1 <;> subst h1 <;> rfl
        have hb : l.any termBadStep = true := by
          rcases h with h | h
          · rw [hhead] at h; exact Bool.noConfusion h
          · exact h
        simp [renderTerms, if_pos hc, ih hb]
      · simp [renderTerms, if_neg hc]

theorem renderTerms_skip (pre post : List PyIndexTerm) :
    renderTerms (pre ++ PyIndexTerm.other :: post) = renderTerms (pre ++ post) := by
  induction pre with
  | nil => rfl
  | cons t l ih =>
    cases t with
    | int i => simp only [List.cons_append, renderTerms, List.append_eq, ih]
    | slice a b st => simp only [List.cons_append, renderTerms, List.append_eq, ih]
    | other => simp only [List.cons_append, renderTerms, List.append_eq, ih]

theorem sliceIsFullOpen_term (t : PyIndexTerm) :
    sliceIsFullOpen (PyIndex.term t) = isFullOpenTerm t := by
  cases t with
  | int i => rfl
  | other => rfl
  | slice a b st => cases a <;> cases b <;> cases st <;> rfl

theorem optIntStr_normBound (x : Option Int) :
    optIntStr (normBound x) = boundToString x := by
  cases x with
  | none => rfl
  | some i =>
    by_cases hi : i = 0
    · subst hi; rfl
    · simp [normBound, optIntStr, boundToString, hi]

theorem wireTermStr_toWireTerm (t : PyIndexTerm) (h : validTerm t = true) :
    wireTermStr (toWireTerm t) = codeRenderTerm t := by
  cases t with
  | int i => rfl
  | other => simp [validTerm] at h
  | slice a b st =>
    simp [wireTermStr, toWireTerm, codeRenderTerm, optIntStr_normBound]

theorem map_wireTermStr (ts : List PyIndexTerm) (h : ts.all validTerm = true) :
    (ts.map toWireTerm).map wireTermStr = ts.map codeRenderTerm := by
  induction ts with
  | nil => rfl
  | cons t l ih =>
    simp only [List.all_cons, Bool.and_eq_true] at h
    simp [wireTermStr_toWireTerm t h.1, ih h.2]

theorem grammar_of_valid (ts : List PyIndexTerm) (h : ts.all validTerm = true) :
    matchesWireGrammar (String.intercalate ", " (ts.map codeRenderTerm)) := by
  cases ts with
  | nil => exact Or.inl rfl
  | cons t l =>
    refine Or.inr ⟨(t :: l).map toWireTerm, by simp, ?_⟩
    rw [map_wireTermStr _ h]

theorem slice_to_string_tuple (ts : List PyIndexTerm) (h : ts.all validTerm = true) :
    slice_to_string (PyIndex.tuple ts) =
      Except.ok (String.intercalate ", " (ts.map codeRenderTerm)) := by
  cases ts with
  | nil => rfl
  | cons t l =>
    have hfo : sliceIsFullOpen (PyIndex.tuple (t :: l)) = false := rfl
    simp [slice_to_string, hfo, termsOf, renderTerms_valid _ h]

theorem slice_to_string_bad (e : PyIndex) (h : hasBadStep e = true) :
    slice_to_string e = Except.error (PyErr.indexError stepMsg) := by
  cases e with
  | none => exact Bool.noConfusion h
  | term t =>
    have ht : termBadStep t = true := h
    have hfo : sliceIsFullOpen (PyIndex.term t) = false := by
      cases t with
      | int i => exact Bool.noConfusion ht
      | other => exact Bool.noConfusion ht
      | slice a b st =>
        cases st with
        | none => exact Bool.noConfusion ht
        | some k => cases a <;> cases b <;> rfl
    have hbad : renderTerms [t] = Except.error (PyErr.indexError stepMsg) := by
      apply renderTerms_bad
      simp [ht]
    simp [slice_to_string, hfo, termsOf, hbad]
  | tuple ts =>
    cases ts with
    | nil => exact Bool.noConfusion h
    | cons head tail =>
      have hfo : sliceIsFullOpen (PyIndex.tuple (head :: tail)) = false := rfl
      have hbad := renderTerms_bad (head :: tail) h
      simp [slice_to_string, hfo, termsOf, hbad]

theorem intercalate_singleton (x : String) : String.intercalate ", " [x] = x := rfl

/-! Claim theorems. -/

/-- C1, counterexample: on a container payload holding the full array
0,1,2,3 with an original request of the range 1 to 3, the decoder
returns the complete array and not the requested sub-region; the
decoder never receives the original expression at all. -/
theorem spec_C1_counterexample :
    decodePayload (Payload.container { shape := [4], data := [0, 1, 2, 3] }) =
      Except.ok (FetchResult.array { shape := [4], data := [0, 1, 2, 3] }) ∧
    specExtract1D { shape := [4], data := [0, 1, 2, 3] } 1 3 ≠
      { shape := [4], data := [0, 1, 2, 3] } := by
  decide

/-- C1, amended: when decompress2 rejects the payload with ValueError or
RuntimeError, decode falls back to ndarray_from_cframe and materializes
the complete decoded container, through the flat colon path when it is
one-dimensional and the empty-tuple path otherwise; no index expression
is applied to extract a sub-region. -/
theorem spec_C1_full_container :
    (∀ a : NDArr, decodePayload (Payload.container a) = Except.ok (FetchResult.array a)) ∧
    (∀ a : NDArr, ndGetItemColon a = a ∧ ndGetItemEmptyTuple a = a) := by
  constructor
  · intro a
    simp [decodePayload, decompress2, ndarray_from_cframe, ndGetItemColon, ndGetItemEmptyTuple]
  · intro a
    exact ⟨rfl, rfl⟩

/-- C2: an index expression containing a range term with a set non-unit
step makes slice_to_string raise the IndexError (the
UnsupportedIndexError of the design document), and the indexing entry
point then issues no request and surfaces that same error. -/
theorem spec_C2_bad_step (t : Transport) (a : C2Array) (e : PyIndex)
    (h : hasBadStep e = true) :
    slice_to_string e = Except.error (PyErr.indexError stepMsg) ∧
    (C2Array.getItem t a e).2.1 = [] ∧
    (C2Array.getItem t a e).2.2 = Except.error (PyErr.indexError stepMsg) := by
  have hs := slice_to_string_bad e h
  exact ⟨hs, by simp [C2Array.getItem, hs], by simp [C2Array.getItem, hs]⟩

theorem spec_C2_bad_step_witness :
    hasBadStep (PyIndex.term (PyIndexTerm.slice Option.none Option.none (Option.some 2))) = true ∧
    (slice_to_string (PyIndex.term (PyIndexTerm.slice Option.none Option.none (Option.some 2))) =
        Except.error (PyErr.indexError stepMsg) ∧
      (C2Array.getItem stub200json hA
          (PyIndex.term (PyIndexTerm.slice Option.none Option.none (Option.some 2)))).2.1 = [] ∧
      (C2Array.getItem stub200json hA
          (PyIndex.term (PyIndexTerm.slice Option.none Option.none (Option.some 2)))).2.2 =
        Except.error (PyErr.indexError stepMsg)) :=
  ⟨by decide, spec_C2_bad_step stub200json hA _ (by decide)⟩

/-- C3: the absent expression, the empty tuple and the full-open slice
all encode to the empty string. -/
theorem spec_C3_select_everything :
    slice_to_string PyIndex.none = Except.ok "" ∧
    slice_to_string (PyIndex.tuple []) = Except.ok "" ∧
    slice_to_string (PyIndex.term (PyIndexTerm.slice Option.none Option.none Option.none)) =
      Except.ok "" := by
  decide

/-- C4, counterexample: the set start bound 0 does not render as its
decimal string; slice(0, 5) encodes to colon 5, not to the rendering
the claim states. -/
theorem spec_C4_counterexample :
    slice_to_string (PyIndex.term (PyIndexTerm.slice (Option.some 0) (Option.some 5) Option.none)) =
      Except.ok ":5" ∧
    claimRenderTerm (PyIndexTerm.slice (Option.some 0) (Option.some 5) Option.none) = "0:5" ∧
    (":5" : String) ≠ "0:5" := by
  decide

/-- C4, amended: on valid terms the encoder renders integers as
decimals and ranges as start colon stop, except that a bound that is
unset or equal to 0 renders as the empty string; terms join with comma
space in axis order, a non-tuple term is normalized to a one-element
tuple (after the select-everything short-circuit), and the result
matches the wire grammar. -/
theorem spec_C4_wire_encoding :
    (∀ ts : List PyIndexTerm, ts.all validTerm = true →
      slice_to_string (PyIndex.tuple ts) =
        Except.ok (String.intercalate ", " (ts.map codeRenderTerm)) ∧
      matchesWireGrammar (String.intercalate ", " (ts.map codeRenderTerm))) ∧
    (∀ t : PyIndexTerm, validTerm t = true → isFullOpenTerm t = false →
      slice_to_string (PyIndex.term t) = slice_to_string (PyIndex.tuple [t])) := by
  constructor
  · intro ts h
    exact ⟨slice_to_string_tuple ts h, grammar_of_valid ts h⟩
  · intro t hv hfo
    have h1 : sliceIsFullOpen (PyIndex.term t) = false := by
      rw [sliceIsFullOpen_term]; exact hfo
    have h2 : sliceIsFullOpen (PyIndex.tuple [t]) = false := rfl
    simp [slice_to_string, h1, h2, termsOf]

theorem spec_C4_wire_encoding_witness :
    ([PyIndexTerm.int 3, PyIndexTerm.slice (Option.some 1) (Option.some 4) Option.none].all
        validTerm = true ∧
      slice_to_string (PyIndex.tuple
          [PyIndexTerm.int 3, PyIndexTerm.slice (Option.some 1) (Option.some 4) Option.none]) =
        Except.ok (String.intercalate ", "
          ([PyIndexTerm.int 3,
            PyIndexTerm.slice (Option.some 1) (Option.some 4) Option.none].map codeRenderTerm)) ∧
      matchesWireGrammar (String.intercalate ", "
        ([PyIndexTerm.int 3,
          PyIndexTerm.slice (Option.some 1) (Option.some 4) Option.none].map codeRenderTerm))) ∧
    (validTerm (PyIndexTerm.int 7) = true ∧ isFullOpenTerm (PyIndexTerm.int 7) = false ∧
      slice_to_string (PyIndex.term (PyIndexTerm.int 7)) =
        slice_to_string (PyIndex.tuple [PyIndexTerm.int 7])) :=
  ⟨⟨by decide, (spec_C4_wire_encoding.1 _ (by decide)).1, (spec_C4_wire_encoding.1 _ (by decide)).2⟩,
   by decide, by decide, spec_C4_wire_encoding.2 _ (by decide) (by decide)⟩

/-- C5, counterexample: a term that is neither an int nor a slice is
silently skipped, not rejected; the expression encodes to the empty
string and a fetch request is then issued. -/
theorem spec_C5_counterexample :
    slice_to_string (PyIndex.tuple [PyIndexTerm.other]) = Except.ok "" ∧
    (C2Array.getItem stub200json hA (PyIndex.tuple [PyIndexTerm.other])).2.1 =
      [fetchRequest hA ""] := by
  decide

/-- C5, amended: inside the encoding loop a term that is neither an int
nor a slice contributes nothing to the output and raises no error; only
a range term whose step is set and differs from one fails, with the
IndexError raised inside the encoder, before any request can be
issued. -/
theorem spec_C5_other_terms_skipped :
    (∀ pre post : List PyIndexTerm,
      renderTerms (pre ++ PyIndexTerm.other :: post) = renderTerms (pre ++ post)) ∧
    (∀ (a b : Option Int) (k : Int), k ≠ 1 →
      renderTerms [PyIndexTerm.slice a b (Option.some k)] =
        Except.error (PyErr.indexError stepMsg)) := by
  constructor
  · exact renderTerms_skip
  · intro a b k hk
    simp [renderTerms, hk]

theorem spec_C5_other_terms_skipped_witness :
    renderTerms ([PyIndexTerm.int 1] ++ PyIndexTerm.other :: [PyIndexTerm.int 2]) =
      renderTerms ([PyIndexTerm.int 1] ++ [PyIndexTerm.int 2]) ∧
    ((2 : Int) ≠ 1 ∧
      renderTerms [PyIndexTerm.slice Option.none Option.none (Option.some 2)] =
        Except.error (PyErr.indexError stepMsg)) :=
  ⟨spec_C5_other_terms_skipped.1 [PyIndexTerm.int 1] [PyIndexTerm.int 2],
   by decide, spec_C5_other_terms_skipped.2 Option.none Option.none 2 (by decide)⟩

/-- C6, counterexample: a success response whose JSON body lacks every
required field still produces a handle; construction performs no
validation and raises no error. -/
theorem spec_C6_counterexample :
    (C2Array.init stub200json "arr" "http://sub/" Option.none).2 =
      Except.ok { path := "arr", sub_url := "http://sub/", auth_cookie := Option.none, meta := [] } ∧
    ([] : List (String × Json)).lookup "shape" = Option.none := by
  decide

/-- C6, amended: on a success status the constructor stores the JSON
body verbatim, whatever fields it has; a missing required field
surfaces only as a KeyError when the corresponding accessor is used. -/
theorem spec_C6_no_validation :
    (∀ (t : Transport) (path sub_url : String) (ck : Option String)
        (j : List (String × Json)),
      isSuccess (t (infoRequest path sub_url ck)).status = true →
      (t (infoRequest path sub_url ck)).body = Body.json j →
      (C2Array.init t path sub_url ck).2 =
        Except.ok { path := path, sub_url := sub_url, auth_cookie := ck, meta := j }) ∧
    (∀ a : C2Array, a.meta.lookup "shape" = Option.none →
      C2Array.shape a = Except.error (PyErr.keyError "shape")) := by
  constructor
  · intro t path sub_url ck j h1 h2
    simp only [infoRequest] at h1 h2
    simp [C2Array.init, get_unfold, _xget, h1, respJson, h2]
  · intro a h
    simp [C2Array.shape, dictGet, h]

theorem spec_C6_no_validation_witness :
    (isSuccess (stub200json (infoRequest "arr" "http://sub/" Option.none)).status = true ∧
      (stub200json (infoRequest "arr" "http://sub/" Option.none)).body = Body.json [] ∧
      (C2Array.init stub200json "arr" "http://sub/" Option.none).2 =
        Except.ok { path := "arr", sub_url := "http://sub/", auth_cookie := Option.none,
                    meta := [] }) ∧
    (hA.meta.lookup "shape" = Option.none ∧
      C2Array.shape hA = Except.error (PyErr.keyError "shape")) :=
  ⟨⟨by decide, by decide,
    spec_C6_no_validation.1 stub200json "arr" "http://sub/" Option.none [] (by decide) (by decide)⟩,
   by decide, spec_C6_no_validation.2 hA (by decide)⟩

/-- C7: a get on a handle with a successfully encoded index issues
exactly one request, to the fetch endpoint of the handle with the
slice_ parameter carrying the wire string and the Cookie header
carrying the auth cookie when one is present; a non-success status
surfaces as the status error of the transport, unchanged. -/
theorem spec_C7_fetch :
    (∀ (t : Transport) (a : C2Array) (e : PyIndex) (s : String),
      slice_to_string e = Except.ok s →
      (C2Array.getItem t a e).2.1 = [fetchRequest a s]) ∧
    (∀ (a : C2Array) (s c : String), a.auth_cookie = Option.some c → c ≠ "" →
      (fetchRequest a s).cookie = Option.some c) ∧
    (∀ (t : Transport) (a : C2Array) (e : PyIndex) (s : String),
      slice_to_string e = Except.ok s →
      isSuccess (t (fetchRequest a s)).status = false →
      (C2Array.getItem t a e).2.2 =
        Except.error (PyErr.httpStatusError (t (fetchRequest a s)).status)) := by
  refine ⟨?_, ?_, ?_⟩
  · intro t a e s h
    simp [C2Array.getItem, h, fetch_data, _xget, fetchRequest]
  · intro a s c hc hne
    simp [fetchRequest, cookieHeader, pyTruthy, hc, hne]
  · intro t a e s h hst
    simp only [fetchRequest] at hst
    simp [C2Array.getItem, h, fetch_data, _xget, fetchRequest, hst]

theorem spec_C7_fetch_witness :
    (slice_to_string (PyIndex.term (PyIndexTerm.int 3)) = Except.ok "3" ∧
      (C2Array.getItem stub404 hA (PyIndex.term (PyIndexTerm.int 3))).2.1 =
        [fetchRequest hA "3"]) ∧
    (hA.auth_cookie = Option.some "tok" ∧ ("tok" : String) ≠ "" ∧
      (fetchRequest hA "3").cookie = Option.some "tok") ∧
    (isSuccess (stub404 (fetchRequest hA "3")).status = false ∧
      (C2Array.getItem stub404 hA (PyIndex.term (PyIndexTerm.int 3))).2.2 =
        Except.error (PyErr.httpStatusError (stub404 (fetchRequest hA "3")).status)) :=
  ⟨⟨by decide, spec_C7_fetch.1 stub404 hA _ "3" (by decide)⟩,
   ⟨by decide, by decide, spec_C7_fetch.2.1 hA "3" "tok" (by decide) (by decide)⟩,
   ⟨by decide, spec_C7_fetch.2.2 stub404 hA _ "3" (by decide) (by decide)⟩⟩

/-- C8, counterexample: on a payload both interpretations reject, the
underlying error of the container interpretation propagates as is; it
is not the DecodeError the claim requires. -/
theorem spec_C8_counterexample :
    decodePayload (Payload.garbage PyErr.runtimeError) = Except.error PyErr.runtimeError ∧
    PyErr.runtimeError ≠ PyErr.decodeError := by
  decide

/-- C8, amended: when neither interpretation succeeds, the error raised
by the container interpretation propagates unchanged, with no dedicated
DecodeError wrapper; the failure leaves the handle itself untouched. -/
theorem spec_C8_error_propagation :
    (∀ e : PyErr, decodePayload (Payload.garbage e) = Except.error e) ∧
    (∀ (t : Transport) (a : C2Array) (e : PyIndex), (C2Array.getItem t a e).1 = a) := by
  constructor
  · intro e
    simp [decodePayload, decompress2, ndarray_from_cframe]
  · intro t a e
    cases h : slice_to_string e with
    | error err => simp [C2Array.getItem, h]
    | ok s => simp [C2Array.getItem, h]

/-- C9: indexing never modifies any field of the handle, whatever the
transport answers, and the metadata accessors are pure reads of the
cached body: two handles with equal cached metadata answer every
accessor identically, with no transport involved. -/
theorem spec_C9_handle_immutable :
    (∀ (t : Transport) (a : C2Array) (e : PyIndex), (C2Array.getItem t a e).1 = a) ∧
    (∀ a b : C2Array, a.meta = b.meta →
      C2Array.shape a = C2Array.shape b ∧ C2Array.chunks a = C2Array.chunks b ∧
      C2Array.blocks a = C2Array.blocks b ∧ C2Array.dtype a = C2Array.dtype b ∧
      C2Array.ext_shape a = C2Array.ext_shape b) := by
  constructor
  · intro t a e
    cases h : slice_to_string e with
    | error err => simp [C2Array.getItem, h]
    | ok s => simp [C2Array.getItem, h]
  · intro a b hm
    simp [C2Array.shape, C2Array.chunks, C2Array.blocks, C2Array.dtype, C2Array.ext_shape, hm]

theorem spec_C9_handle_immutable_witness :
    (C2Array.getItem stub404 hA (PyIndex.term (PyIndexTerm.int 0))).1 = hA ∧
    (hA.meta = hB.meta ∧
      (C2Array.shape hA = C2Array.shape hB ∧ C2Array.chunks hA = C2Array.chunks hB ∧
        C2Array.blocks hA = C2Array.blocks hB ∧ C2Array.dtype hA = C2Array.dtype hB ∧
        C2Array.ext_shape hA = C2Array.ext_shape hB)) :=
  ⟨spec_C9_handle_immutable.1 stub404 hA _, rfl, spec_C9_handle_immutable.2 hA hB rfl⟩

/-- C10: a start bound equal to 0 renders as the empty string, so
slice(0, n) and slice(None, n) encode identically for every integer n;
symmetrically a stop bound equal to 0 renders empty, so slice(m, 0)
encodes as the decimal of m followed by a colon for every nonzero m. -/
theorem spec_C10_zero_bound :
    (∀ n : Int,
      slice_to_string (PyIndex.term
          (PyIndexTerm.slice (Option.some 0) (Option.some n) Option.none)) =
        slice_to_string (PyIndex.term
          (PyIndexTerm.slice Option.none (Option.some n) Option.none))) ∧
    (∀ m : Int,
      slice_to_string (PyIndex.term
          (PyIndexTerm.slice (Option.some m) (Option.some 0) Option.none)) =
        slice_to_string (PyIndex.term
          (PyIndexTerm.slice (Option.some m) Option.none Option.none))) ∧
    (∀ m : Int, m ≠ 0 →
      slice_to_string (PyIndex.term
          (PyIndexTerm.slice (Option.some m) (Option.some 0) Option.none)) =
        Except.ok (toString m ++ ":")) := by
  refine ⟨?_, ?_, ?_⟩
  · intro n
    rfl
  · intro m
    rfl
  · intro m hm
    have hfo : sliceIsFullOpen (PyIndex.term
        (PyIndexTerm.slice (Option.some m) (Option.some 0) Option.none)) = false := rfl
    simp [slice_to_string, hfo, termsOf, renderTerms, boundToString, hm, intercalate_singleton]

theorem spec_C10_zero_bound_witness :
    (5 : Int) ≠ 0 ∧
    slice_to_string (PyIndex.term
        (PyIndexTerm.slice (Option.some 5) (Option.some 0) Option.none)) =
      Except.ok (toString (5 : Int) ++ ":") :=
  ⟨by decide, spec_C10_zero_bound.2.2 5 (by decide)⟩
